import Mathlib

/-!
# Care Plan Rule Engine — shallow embedding

A shallow embedding of `care_plan_generator.py` (class `CareplanGenerator`).
Numeric profile fields and risk scores are modelled as `Rat`; the Python
dict-shaped care plan becomes a Lean structure; each `_add_*` method, which in
the source appends to a section of a mutable accumulator, becomes a pure
function returning the list it appends, and `generate_comprehensive_care_plan`
assembles them in the source's order.
-/

namespace CareplanGenerator

/-- One risk assessment as consumed by the engine: the engine reads only the
`score` field; `risk_level` and `factors` are carried opaquely. -/
structure RiskAssessment where
  score : Rat
  risk_level : String
  factors : List String
  deriving DecidableEq

/-- The three required condition entries of the risk dict, once all three key
lookups have succeeded. -/
structure RiskAssessmentSet where
  diabetes : RiskAssessment
  heart_disease : RiskAssessment
  hypertension : RiskAssessment
  deriving DecidableEq

/-- The patient-data fields the care-plan generator reads. -/
structure PatientProfile where
  age : Rat
  bmi : Rat
  systolic_bp : Rat
  diastolic_bp : Rat
  fasting_glucose : Rat
  cholesterol : Rat
  exercise_days : Rat
  smoking : String
  alcohol_consumption : String
  existing_conditions : List String
  medications : String
  deriving DecidableEq

/-- One row of the monitoring schedule (dict with keys Parameter, Frequency,
Target, Action in the source). -/
structure MonitoringItem where
  parameter : String
  frequency : String
  target : String
  action : String
  deriving DecidableEq

/-- The five lifestyle category lists; every key is always present. -/
structure Lifestyle where
  diet_nutrition : List String
  physical_activity : List String
  stress_management : List String
  sleep_hygiene : List String
  substance_use : List String
  deriving DecidableEq

/-- The assembled care plan. -/
structure CarePlan where
  immediate_actions : List String
  lifestyle : Lifestyle
  medical_followup : List String
  monitoring_schedule : List MonitoringItem
  deriving DecidableEq

/-- `self.risk_thresholds` from `__init__`. -/
structure RiskThresholds where
  low : Rat
  moderate : Rat

/-- The threshold dict as initialised in the source: low ↦ 0.4, moderate ↦ 0.7
(written as normalised rationals). -/
def risk_thresholds : RiskThresholds := { low := mkRat 4 10, moderate := mkRat 7 10 }

/-- One-decimal rendering of a rational (round half to even), standing in for
the source's one-decimal format spec applied to the bmi value. -/
def formatRat1 (q : Rat) : String :=
  let neg := decide (q < 0)
  let a := if q < 0 then -q else q
  let t := a * 10
  let fl := t.floor
  let frac := t - (fl : Rat)
  let n : Int :=
    if frac > 1/2 then fl + 1
    else if frac < 1/2 then fl
    else if fl % 2 = 0 then fl else fl + 1
  (if neg ∧ n ≠ 0 then ("-") else ("")) ++ toString (n / 10) ++ "." ++ toString (n % 10)

/-- The hypertensive-crisis urgent-action string. -/
def hypertensiveCrisisAction : String :=
  "URGENT: Seek immediate medical attention for hypertensive crisis (BP ≥180/120)"

/-- `_add_immediate_actions`: the strings appended to
`care_plan['immediate_actions']`. -/
def add_immediate_actions (p : PatientProfile) (risks : RiskAssessmentSet) :
    List String :=
  (if p.systolic_bp ≥ 180 ∨ p.diastolic_bp ≥ 120 then
    [hypertensiveCrisisAction]
   else []) ++
  (if p.fasting_glucose ≥ 250 then
    ["URGENT: Seek immediate medical attention for severe hyperglycemia (glucose ≥250 mg/dL)"]
   else []) ++
  (if risks.diabetes.score ≥ mkRat 8 10 then
    ["Schedule medical evaluation within 2 weeks for diabetes screening and management"]
   else []) ++
  (if risks.heart_disease.score ≥ mkRat 8 10 then
    ["Schedule cardiology consultation within 1 month for comprehensive cardiac risk assessment"]
   else []) ++
  (if risks.hypertension.score ≥ mkRat 8 10 ∧ p.systolic_bp ≥ 160 then
    ["Schedule medical appointment within 1 week to initiate or adjust blood pressure medication"]
   else [])

/-- `_add_diet_recommendations`: the strings appended to
`care_plan['lifestyle']['diet_nutrition']`. -/
def add_diet_recommendations (p : PatientProfile) (risks : RiskAssessmentSet) :
    List String :=
  ["Follow a balanced diet rich in fruits, vegetables, whole grains, and lean proteins"] ++
  (if p.bmi ≥ 30 then
    ["Implement a structured weight loss plan targeting 1-2 pounds per week",
     "Consider consultation with a registered dietitian for personalized meal planning",
     "Practice portion control using smaller plates and measuring portions"]
   else if p.bmi ≥ 25 then
    ["Focus on portion control and increase vegetable intake to achieve healthy weight"]
   else []) ++
  (if risks.diabetes.score ≥ risk_thresholds.moderate then
    ["Limit refined carbohydrates and added sugars",
     "Choose complex carbohydrates with low glycemic index",
     "Include fiber-rich foods (≥25g daily) to help manage blood sugar",
     "Eat regular meals to maintain stable blood glucose levels"]
   else []) ++
  (if risks.heart_disease.score ≥ risk_thresholds.moderate then
    ["Follow heart-healthy diet (Mediterranean or DASH diet)",
     "Limit saturated fat to <7% of total calories",
     "Include omega-3 fatty acids from fish 2-3 times per week",
     "Limit sodium intake to <2,300mg daily (ideally <1,500mg)"]
   else []) ++
  (if risks.hypertension.score ≥ risk_thresholds.moderate then
    ["Follow DASH diet emphasizing fruits, vegetables, and low-fat dairy",
     "Reduce sodium intake to <1,500mg daily",
     "Increase potassium-rich foods (bananas, oranges, spinach)",
     "Limit processed and packaged foods"]
   else []) ++
  (if p.cholesterol ≥ 200 then
    ["Increase soluble fiber intake (oats, beans, apples)",
     "Include plant sterols and stanols in diet",
     "Choose lean proteins and limit red meat consumption"]
   else [])

/-- `_add_exercise_recommendations`: the strings appended to
`care_plan['lifestyle']['physical_activity']`. -/
def add_exercise_recommendations (p : PatientProfile) (risks : RiskAssessmentSet) :
    List String :=
  (if p.exercise_days < 3 then
    ["Gradually increase to 150 minutes of moderate-intensity aerobic activity per week",
     "Start with 10-15 minute walks and progressively increase duration",
     "Include resistance training 2-3 times per week"]
   else if p.exercise_days < 5 then
    ["Aim for 150-300 minutes of moderate-intensity exercise weekly",
     "Add variety with different types of cardio activities"]
   else
    ["Maintain current excellent exercise routine",
     "Consider adding high-intensity interval training 1-2 times per week"]) ++
  (if p.bmi ≥ 30 then
    ["Focus on low-impact activities initially (swimming, cycling, walking)",
     "Incorporate strength training to preserve muscle mass during weight loss"]
   else []) ++
  (if risks.diabetes.score ≥ risk_thresholds.moderate then
    ["Include both aerobic and resistance training for optimal glucose control",
     "Exercise at consistent times to help regulate blood sugar",
     "Monitor blood glucose before and after exercise if diabetic"]
   else []) ++
  (if risks.heart_disease.score ≥ risk_thresholds.moderate then
    ["Start with cardiac-safe exercise program, progressing gradually",
     "Include warm-up and cool-down periods in all exercise sessions",
     "Monitor heart rate during exercise (target 50-85% max heart rate)"]
   else []) ++
  (if risks.hypertension.score ≥ risk_thresholds.moderate then
    ["Emphasize aerobic exercise which effectively lowers blood pressure",
     "Avoid heavy weightlifting initially; focus on moderate resistance training",
     "Monitor blood pressure response to exercise"]
   else [])

/-- `_add_stress_management`: the strings appended to
`care_plan['lifestyle']['stress_management']`. -/
def add_stress_management (p : PatientProfile) (risks : RiskAssessmentSet) :
    List String :=
  ["Practice daily stress-reduction techniques (meditation, deep breathing)",
   "Maintain social connections and seek support when needed",
   "Consider mindfulness-based stress reduction (MBSR) programs"] ++
  (if risks.heart_disease.score ≥ risk_thresholds.moderate then
    ["Learn and practice progressive muscle relaxation techniques",
     "Consider counseling or therapy for chronic stress management"]
   else []) ++
  (if risks.hypertension.score ≥ risk_thresholds.moderate then
    ["Practice daily meditation or yoga to help lower blood pressure",
     "Identify and address major stressors in work and personal life"]
   else []) ++
  ["Engage in enjoyable hobbies and recreational activities",
   "Maintain work-life balance and take regular vacations"]

/-- `_add_sleep_recommendations`: the strings appended to
`care_plan['lifestyle']['sleep_hygiene']`. -/
def add_sleep_recommendations (p : PatientProfile) (risks : RiskAssessmentSet) :
    List String :=
  ["Maintain consistent sleep schedule (7-9 hours nightly)",
   "Create a comfortable, dark, and quiet sleep environment",
   "Avoid screens 1 hour before bedtime",
   "Limit caffeine intake after 2 PM"] ++
  (if p.existing_conditions.contains ("Sleep Apnea") then
    ["Ensure compliance with CPAP therapy if prescribed",
     "Sleep on side rather than back to reduce apnea episodes"]
   else []) ++
  (if p.bmi ≥ 30 then
    ["Weight loss can significantly improve sleep quality and reduce sleep apnea risk"]
   else []) ++
  (if risks.diabetes.score ≥ risk_thresholds.moderate then
    ["Maintain regular sleep schedule to help regulate blood sugar",
     "Avoid large meals close to bedtime"]
   else []) ++
  ["Consider relaxation techniques before bed (reading, gentle stretching)"]

/-- `_add_substance_use_recommendations`: the strings appended to
`care_plan['lifestyle']['substance_use']`. -/
def add_substance_use_recommendations (p : PatientProfile)
    (risks : RiskAssessmentSet) : List String :=
  (if p.smoking = "Current" then
    ["PRIORITY: Quit smoking immediately - consider nicotine replacement therapy",
     "Join smoking cessation program or seek counseling support",
     "Avoid triggers and develop healthy coping strategies",
     "Consider prescription medications for smoking cessation (consult physician)"]
   else if p.smoking = "Former" then
    ["Continue to avoid tobacco products and secondhand smoke",
     "Maintain smoke-free environment at home and work"]
   else []) ++
  (if p.alcohol_consumption = "Heavy" then
    ["Reduce alcohol intake to moderate levels or consider abstinence",
     "Seek support for alcohol reduction if needed",
     "Limit alcohol to ≤1 drink/day (women) or ≤2 drinks/day (men)"]
   else if p.alcohol_consumption = "Moderate" then
    ["Maintain current moderate alcohol consumption or consider reducing further"]
   else []) ++
  (if risks.heart_disease.score ≥ mkRat 7 10 ∨ risks.hypertension.score ≥ mkRat 7 10 then
    (if p.alcohol_consumption ≠ "None" then
      ["Consider eliminating alcohol completely to maximize cardiovascular benefits"]
     else [])
   else [])

/-- `_add_medical_followup`: the strings appended to
`care_plan['medical_followup']`. -/
def add_medical_followup (p : PatientProfile) (risks : RiskAssessmentSet) :
    List String :=
  (if p.age ≥ 40 then
    ["Annual comprehensive physical examination"]
   else
    ["Physical examination every 2-3 years, or annually if risk factors present"]) ++
  (if risks.diabetes.score ≥ risk_thresholds.moderate then
    ["HbA1c testing every 3-6 months",
     "Annual diabetic eye examination",
     "Annual foot examination for diabetic complications",
     "Consider continuous glucose monitoring if diabetic"]
   else []) ++
  (if risks.heart_disease.score ≥ risk_thresholds.moderate then
    ["Lipid panel every 3-6 months until goals achieved, then annually",
     "Consider stress testing or cardiac imaging if symptoms develop",
     "Blood pressure monitoring at each medical visit"]
   else []) ++
  (if risks.hypertension.score ≥ risk_thresholds.moderate then
    ["Blood pressure monitoring every 2-4 weeks until controlled",
     "Home blood pressure monitoring with log",
     "Kidney function tests annually"]
   else []) ++
  ["Age-appropriate cancer screenings (colonoscopy, mammography, etc.)",
   "Vaccination updates as recommended",
   "Bone density screening if indicated"]

/-- The weekly weight row (bmi ≥ 25 branch); its target restates the current
bmi through the one-decimal format. -/
def weightWeeklyRow (p : PatientProfile) : MonitoringItem :=
  { parameter := "Weight", frequency := "Weekly",
    target := "Target BMI 18.5-24.9 (current: " ++ formatRat1 p.bmi ++ ")",
    action := "Track weight loss progress" }

/-- The monthly weight row (bmi < 25 branch). -/
def weightMonthlyRow : MonitoringItem :=
  { parameter := "Weight", frequency := "Monthly",
    target := "Maintain current healthy weight", action := "Monitor for changes" }

/-- The daily home blood-pressure row (hypertension score at or above the
moderate threshold). -/
def bpDailyRow : MonitoringItem :=
  { parameter := "Blood Pressure", frequency := "Daily (home monitoring)",
    target := "<130/80 mmHg",
    action := "Log readings, report if consistently elevated" }

/-- The monthly blood-pressure row (else branch). -/
def bpMonthlyRow : MonitoringItem :=
  { parameter := "Blood Pressure", frequency := "Monthly",
    target := "<120/80 mmHg", action := "Monitor for trends" }

/-- The blood-glucose row (diabetes score at or above the moderate threshold). -/
def glucoseRow : MonitoringItem :=
  { parameter := "Blood Glucose",
    frequency := "Daily (if diabetic) or weekly (prediabetic)",
    target := "Fasting: 80-130 mg/dL",
    action := "Track patterns and report to physician" }

/-- The cholesterol-panel row. -/
def cholesterolRow : MonitoringItem :=
  { parameter := "Cholesterol Panel", frequency := "Every 3-6 months",
    target := "Total <200 mg/dL, LDL <100 mg/dL",
    action := "Laboratory testing with physician review" }

/-- The unconditional physical-activity row. -/
def activityRow : MonitoringItem :=
  { parameter := "Physical Activity", frequency := "Daily",
    target := "150+ minutes moderate activity/week",
    action := "Log exercise duration and intensity" }

/-- The medication-adherence row (medications non-blank after trimming). -/
def medicationRow : MonitoringItem :=
  { parameter := "Medication Adherence", frequency := "Daily",
    target := "100% compliance", action := "Use pill organizer, set reminders" }

/-- `_add_monitoring_schedule`: the list assigned to
`care_plan['monitoring_schedule']`. The source gates the medication row on the
truthiness of `medications.strip()`, i.e. on the field containing at least one
non-whitespace character; that test is taken structurally over the characters. -/
def add_monitoring_schedule (p : PatientProfile) (risks : RiskAssessmentSet) :
    List MonitoringItem :=
  (if p.bmi ≥ 25 then [weightWeeklyRow p] else [weightMonthlyRow]) ++
  (if risks.hypertension.score ≥ risk_thresholds.moderate then [bpDailyRow]
   else [bpMonthlyRow]) ++
  (if risks.diabetes.score ≥ risk_thresholds.moderate then [glucoseRow] else []) ++
  (if p.cholesterol ≥ 200 ∨ risks.heart_disease.score ≥ risk_thresholds.moderate then
    [cholesterolRow]
   else []) ++
  [activityRow] ++
  (if p.medications.data.all Char.isWhitespace then [] else [medicationRow])

/-- `generate_comprehensive_care_plan` after the three risk-key lookups have
succeeded: runs every rule module once over the same two inputs and assembles
the plan. -/
def generate_care_plan (p : PatientProfile) (risks : RiskAssessmentSet) :
    CarePlan :=
  { immediate_actions := add_immediate_actions p risks
    lifestyle :=
      { diet_nutrition := add_diet_recommendations p risks
        physical_activity := add_exercise_recommendations p risks
        stress_management := add_stress_management p risks
        sleep_hygiene := add_sleep_recommendations p risks
        substance_use := add_substance_use_recommendations p risks }
    medical_followup := add_medical_followup p risks
    monitoring_schedule := add_monitoring_schedule p risks }

/-- `generate_comprehensive_care_plan` as called on the risk dict: the source
reads `risks['diabetes']['score']`, `risks['heart_disease']['score']` and
`risks['hypertension']['score']` before any rule module runs, so a missing key
raises (here: `none`) with no partial plan; otherwise the full plan is built. -/
def generate_comprehensive_care_plan (p : PatientProfile)
    (risks : String → Option RiskAssessment) : Option CarePlan :=
  match risks ("diabetes"), risks ("heart_disease"), risks ("hypertension") with
  | some d, some hd, some hy => some (generate_care_plan p ⟨d, hd, hy⟩)
  | _, _, _ => none

/-- A risk assessment carrying only a score (risk_level and factors are never
read by the engine). -/
def mkRisk (s : Rat) : RiskAssessment :=
  { score := s, risk_level := "", factors := [] }

/-- A full risk-assessment set built from three scores. -/
def mkRiskSet (d hd hy : Rat) : RiskAssessmentSet :=
  ⟨mkRisk d, mkRisk hd, mkRisk hy⟩

/-- A risk lookup in which the three required keys are present. -/
def fullRiskLookup (d hd hy : RiskAssessment) : String → Option RiskAssessment :=
  fun k =>
    if k = "diabetes" then some d
    else if k = "heart_disease" then some hd
    else if k = "hypertension" then some hy
    else none

/-- The Scenario B profile of the specification: every vital under every acute
threshold, bmi 22, glucose 90, cholesterol 180, three exercise days, never
smoked, no alcohol, no medications. -/
def scenarioB_profile : PatientProfile :=
  { age := 30, bmi := 22, systolic_bp := 110, diastolic_bp := 70,
    fasting_glucose := 90, cholesterol := 180, exercise_days := 3,
    smoking := "Never", alcohol_consumption := "None",
    existing_conditions := ["None"], medications := "" }

/-- A profile whose numeric fields are zero or negative, far outside any
physiological range, used to exercise totality. -/
def outOfRange_profile : PatientProfile :=
  { age := -5, bmi := 0, systolic_bp := -200, diastolic_bp := 0,
    fasting_glucose := -1, cholesterol := 0, exercise_days := -3,
    smoking := "Never", alcohol_consumption := "None",
    existing_conditions := [], medications := "  " }

/-- C1 counterexample: at hypertension score 0.5, which is ≥ 0.4, the schedule
does not contain the daily home blood-pressure row; it contains the monthly
row instead, refuting the claimed 0.4 gate. -/
theorem C1_counterexample :
    mkRat 5 10 ≥ mkRat 4 10 ∧
    bpDailyRow ∉ (generate_care_plan scenarioB_profile
        (mkRiskSet (mkRat 2 10) (mkRat 2 10) (mkRat 5 10))).monitoring_schedule ∧
    bpMonthlyRow ∈ (generate_care_plan scenarioB_profile
        (mkRiskSet (mkRat 2 10) (mkRat 2 10) (mkRat 5 10))).monitoring_schedule := by
  decide

/-- C1 (corrected): the monitoring schedule contains the daily home
blood-pressure row (target <130/80) exactly when the hypertension score is
≥ 0.7 — the value the source stores under the `moderate` threshold key — and
contains the monthly row (target <120/80) exactly otherwise. -/
theorem C1_bp_monitoring_threshold (p : PatientProfile) (risks : RiskAssessmentSet) :
    (bpDailyRow ∈ (generate_care_plan p risks).monitoring_schedule ↔
      risks.hypertension.score ≥ mkRat 7 10) ∧
    (bpMonthlyRow ∈ (generate_care_plan p risks).monitoring_schedule ↔
      ¬ risks.hypertension.score ≥ mkRat 7 10) := by
  simp only [generate_care_plan, add_monitoring_schedule, risk_thresholds]
  constructor <;>
    (split_ifs <;>
      simp_all [bpDailyRow, bpMonthlyRow, weightWeeklyRow, weightMonthlyRow, glucoseRow,
        cholesterolRow, activityRow, medicationRow, MonitoringItem.mk.injEq])

/-- C1 witness: the daily row appears at hypertension score 0.8 and the
monthly row at score 0.2. -/
theorem C1_bp_monitoring_threshold_witness :
    bpDailyRow ∈ (generate_care_plan scenarioB_profile
        (mkRiskSet (mkRat 2 10) (mkRat 2 10) (mkRat 8 10))).monitoring_schedule ∧
    bpMonthlyRow ∈ (generate_care_plan scenarioB_profile
        (mkRiskSet (mkRat 2 10) (mkRat 2 10) (mkRat 2 10))).monitoring_schedule :=
  ⟨(C1_bp_monitoring_threshold scenarioB_profile
      (mkRiskSet (mkRat 2 10) (mkRat 2 10) (mkRat 8 10))).1.mpr (by decide),
   (C1_bp_monitoring_threshold scenarioB_profile
      (mkRiskSet (mkRat 2 10) (mkRat 2 10) (mkRat 2 10))).2.mpr (by decide)⟩

/-- C2 counterexample: raising the diabetes score from 0.3 to 0.5 leaves the
whole care plan unchanged — in particular the glycemic diet tier, the HbA1c
follow-up item, and the glucose monitoring row are all still absent at 0.5 —
refuting the claim that crossing 0.4 strictly adds them. -/
theorem C2_counterexample :
    (generate_care_plan scenarioB_profile (mkRiskSet (mkRat 3 10) (mkRat 2 10) (mkRat 2 10)) =
      generate_care_plan scenarioB_profile (mkRiskSet (mkRat 5 10) (mkRat 2 10) (mkRat 2 10))) ∧
    ("Limit refined carbohydrates and added sugars" ∉
      (generate_care_plan scenarioB_profile
        (mkRiskSet (mkRat 5 10) (mkRat 2 10) (mkRat 2 10))).lifestyle.diet_nutrition) ∧
    ("HbA1c testing every 3-6 months" ∉
      (generate_care_plan scenarioB_profile
        (mkRiskSet (mkRat 5 10) (mkRat 2 10) (mkRat 2 10))).medical_followup) ∧
    (glucoseRow ∉ (generate_care_plan scenarioB_profile
        (mkRiskSet (mkRat 5 10) (mkRat 2 10) (mkRat 2 10))).monitoring_schedule) := by
  decide

/-- C2 (corrected): raising the diabetes score from 0.3 to 0.7 — the gate the
code actually uses — strictly adds the glycemic-control diet tier, the four
HbA1c/eye/foot/CGM follow-up items, and the blood-glucose monitoring row,
while every section of the plan at 0.3 survives (as a sublist) at 0.7. -/
theorem C2_diabetes_monotonicity (p : PatientProfile) (rl rl' : String)
    (f f' : List String) (hd hy : RiskAssessment) :
    (("Limit refined carbohydrates and added sugars" ∈
        (generate_care_plan p ⟨⟨mkRat 7 10, rl', f'⟩, hd, hy⟩).lifestyle.diet_nutrition) ∧
     ("Choose complex carbohydrates with low glycemic index" ∈
        (generate_care_plan p ⟨⟨mkRat 7 10, rl', f'⟩, hd, hy⟩).lifestyle.diet_nutrition) ∧
     ("Include fiber-rich foods (≥25g daily) to help manage blood sugar" ∈
        (generate_care_plan p ⟨⟨mkRat 7 10, rl', f'⟩, hd, hy⟩).lifestyle.diet_nutrition) ∧
     ("Eat regular meals to maintain stable blood glucose levels" ∈
        (generate_care_plan p ⟨⟨mkRat 7 10, rl', f'⟩, hd, hy⟩).lifestyle.diet_nutrition) ∧
     ("HbA1c testing every 3-6 months" ∈
        (generate_care_plan p ⟨⟨mkRat 7 10, rl', f'⟩, hd, hy⟩).medical_followup) ∧
     ("Annual diabetic eye examination" ∈
        (generate_care_plan p ⟨⟨mkRat 7 10, rl', f'⟩, hd, hy⟩).medical_followup) ∧
     ("Annual foot examination for diabetic complications" ∈
        (generate_care_plan p ⟨⟨mkRat 7 10, rl', f'⟩, hd, hy⟩).medical_followup) ∧
     ("Consider continuous glucose monitoring if diabetic" ∈
        (generate_care_plan p ⟨⟨mkRat 7 10, rl', f'⟩, hd, hy⟩).medical_followup) ∧
     (glucoseRow ∈
        (generate_care_plan p ⟨⟨mkRat 7 10, rl', f'⟩, hd, hy⟩).monitoring_schedule)) ∧
    (("Limit refined carbohydrates and added sugars" ∉
        (generate_care_plan p ⟨⟨mkRat 3 10, rl, f⟩, hd, hy⟩).lifestyle.diet_nutrition) ∧
     ("HbA1c testing every 3-6 months" ∉
        (generate_care_plan p ⟨⟨mkRat 3 10, rl, f⟩, hd, hy⟩).medical_followup) ∧
     (glucoseRow ∉
        (generate_care_plan p ⟨⟨mkRat 3 10, rl, f⟩, hd, hy⟩).monitoring_schedule)) ∧
    ((generate_care_plan p ⟨⟨mkRat 3 10, rl, f⟩, hd, hy⟩).immediate_actions =
        (generate_care_plan p ⟨⟨mkRat 7 10, rl', f'⟩, hd, hy⟩).immediate_actions) ∧
    (List.Sublist
        (generate_care_plan p ⟨⟨mkRat 3 10, rl, f⟩, hd, hy⟩).lifestyle.diet_nutrition
        (generate_care_plan p ⟨⟨mkRat 7 10, rl', f'⟩, hd, hy⟩).lifestyle.diet_nutrition) ∧
    (List.Sublist
        (generate_care_plan p ⟨⟨mkRat 3 10, rl, f⟩, hd, hy⟩).lifestyle.physical_activity
        (generate_care_plan p ⟨⟨mkRat 7 10, rl', f'⟩, hd, hy⟩).lifestyle.physical_activity) ∧
    (List.Sublist
        (generate_care_plan p ⟨⟨mkRat 3 10, rl, f⟩, hd, hy⟩).lifestyle.sleep_hygiene
        (generate_care_plan p ⟨⟨mkRat 7 10, rl', f'⟩, hd, hy⟩).lifestyle.sleep_hygiene) ∧
    ((generate_care_plan p ⟨⟨mkRat 3 10, rl, f⟩, hd, hy⟩).lifestyle.stress_management =
        (generate_care_plan p ⟨⟨mkRat 7 10, rl', f'⟩, hd, hy⟩).lifestyle.stress_management) ∧
    ((generate_care_plan p ⟨⟨mkRat 3 10, rl, f⟩, hd, hy⟩).lifestyle.substance_use =
        (generate_care_plan p ⟨⟨mkRat 7 10, rl', f'⟩, hd, hy⟩).lifestyle.substance_use) ∧
    (List.Sublist
        (generate_care_plan p ⟨⟨mkRat 3 10, rl, f⟩, hd, hy⟩).medical_followup
        (generate_care_plan p ⟨⟨mkRat 7 10, rl', f'⟩, hd, hy⟩).medical_followup) ∧
    (List.Sublist
        (generate_care_plan p ⟨⟨mkRat 3 10, rl, f⟩, hd, hy⟩).monitoring_schedule
        (generate_care_plan p ⟨⟨mkRat 7 10, rl', f'⟩, hd, hy⟩).monitoring_schedule) := by
  have hpos : (risk_thresholds.moderate ≤ mkRat 7 10) = True := by decide
  have hneg : (risk_thresholds.moderate ≤ mkRat 3 10) = False := by decide
  refine ⟨⟨?_, ?_, ?_, ?_, ?_, ?_, ?_, ?_, ?_⟩, ⟨?_, ?_, ?_⟩, ?_, ?_, ?_, ?_, ?_, ?_, ?_, ?_⟩
  · simp [generate_care_plan, add_diet_recommendations, hpos]
  · simp [generate_care_plan, add_diet_recommendations, hpos]
  · simp [generate_care_plan, add_diet_recommendations, hpos]
  · simp [generate_care_plan, add_diet_recommendations, hpos]
  · simp [generate_care_plan, add_medical_followup, hpos]
  · simp [generate_care_plan, add_medical_followup, hpos]
  · simp [generate_care_plan, add_medical_followup, hpos]
  · simp [generate_care_plan, add_medical_followup, hpos]
  · simp [generate_care_plan, add_monitoring_schedule, hpos]
  · simp only [generate_care_plan, add_diet_recommendations, hneg, if_false]
    split_ifs <;> simp
  · simp only [generate_care_plan, add_medical_followup, hneg, if_false]
    split_ifs <;> simp
  · simp only [generate_care_plan, add_monitoring_schedule, hneg, if_false]
    split_ifs <;>
      simp [glucoseRow, weightWeeklyRow, weightMonthlyRow, bpDailyRow, bpMonthlyRow,
        cholesterolRow, activityRow, medicationRow, MonitoringItem.mk.injEq]
  · simp [generate_care_plan, add_immediate_actions,
      show (mkRat 8 10 ≤ mkRat 3 10) = False from by decide,
      show (mkRat 8 10 ≤ mkRat 7 10) = False from by decide]
  · simp only [generate_care_plan, add_diet_recommendations, hneg, hpos, if_false, if_true]
    split_ifs <;>
      (repeat first
        | exact List.Sublist.refl _
        | exact List.nil_sublist _
        | apply List.Sublist.cons₂
        | apply List.Sublist.cons)
  · simp only [generate_care_plan, add_exercise_recommendations, hneg, hpos, if_false, if_true]
    split_ifs <;>
      (repeat first
        | exact List.Sublist.refl _
        | exact List.nil_sublist _
        | apply List.Sublist.cons₂
        | apply List.Sublist.cons)
  · simp only [generate_care_plan, add_sleep_recommendations, hneg, hpos, if_false, if_true]
    split_ifs <;>
      (repeat first
        | exact List.Sublist.refl _
        | exact List.nil_sublist _
        | apply List.Sublist.cons₂
        | apply List.Sublist.cons)
  · rfl
  · rfl
  · simp only [generate_care_plan, add_medical_followup, hneg, hpos, if_false, if_true]
    split_ifs <;>
      (repeat first
        | exact List.Sublist.refl _
        | exact List.nil_sublist _
        | apply List.Sublist.cons₂
        | apply List.Sublist.cons)
  · simp only [generate_care_plan, add_monitoring_schedule, hneg, hpos, if_false, if_true]
    split_ifs <;>
      (repeat first
        | exact List.Sublist.refl _
        | exact List.nil_sublist _
        | apply List.Sublist.cons₂
        | apply List.Sublist.cons)

/-- C2 witness: at a concrete profile, the glycemic diet tier is present once
the diabetes score is 0.7. -/
theorem C2_diabetes_monotonicity_witness :
    "Limit refined carbohydrates and added sugars" ∈
      (generate_care_plan scenarioB_profile
        ⟨⟨mkRat 7 10, "", []⟩, mkRisk (mkRat 2 10), mkRisk (mkRat 2 10)⟩).lifestyle.diet_nutrition :=
  (C2_diabetes_monotonicity scenarioB_profile ("") ("") [] []
    (mkRisk (mkRat 2 10)) (mkRisk (mkRat 2 10))).1.1

/-- C3 counterexample: with age 30 and all three scores 0.9 (well above 0.4),
the first follow-up item is still the fixed every-2-3-years string, not the
annual-examination item: no score-driven escalation exists in the code. -/
theorem C3_counterexample :
    scenarioB_profile.age < 40 ∧
    mkRat 9 10 ≥ mkRat 4 10 ∧
    (generate_care_plan scenarioB_profile
        (mkRiskSet (mkRat 9 10) (mkRat 9 10) (mkRat 9 10))).medical_followup.head? =
      some ("Physical examination every 2-3 years, or annually if risk factors present") ∧
    "Physical examination every 2-3 years, or annually if risk factors present" ≠
      "Annual comprehensive physical examination" := by
  decide

/-- C3 (corrected): the first medical-followup item depends only on the age:
an annual comprehensive physical examination for age ≥ 40, and otherwise the
single fixed string offering a physical every 2-3 years or annually if risk
factors are present — the risk scores never change the first item. -/
theorem C3_first_followup_item (p : PatientProfile) (risks : RiskAssessmentSet) :
    (generate_care_plan p risks).medical_followup.head? =
      some (if p.age ≥ 40 then ("Annual comprehensive physical examination")
            else ("Physical examination every 2-3 years, or annually if risk factors present")) := by
  simp only [generate_care_plan, add_medical_followup]
  split_ifs <;> rfl

/-- C3 witness: at age 45 the first follow-up item is the annual physical. -/
theorem C3_first_followup_item_witness :
    (generate_care_plan { scenarioB_profile with age := 45 }
        (mkRiskSet (mkRat 2 10) (mkRat 2 10) (mkRat 2 10))).medical_followup.head? =
      some ("Annual comprehensive physical examination") := by
  rw [C3_first_followup_item]
  decide

/-- C4 (confirmed): for the Scenario B input, immediate actions are empty and
the monitoring schedule is exactly the monthly weight row, the monthly blood
pressure row, and the physical-activity row; the glucose, cholesterol, and
medication-adherence rows are all absent. -/
theorem C4_scenarioB :
    (generate_care_plan scenarioB_profile
        (mkRiskSet (mkRat 2 10) (mkRat 2 10) (mkRat 2 10))).immediate_actions = [] ∧
    (generate_care_plan scenarioB_profile
        (mkRiskSet (mkRat 2 10) (mkRat 2 10) (mkRat 2 10))).monitoring_schedule =
      [weightMonthlyRow, bpMonthlyRow, activityRow] ∧
    glucoseRow ∉ (generate_care_plan scenarioB_profile
        (mkRiskSet (mkRat 2 10) (mkRat 2 10) (mkRat 2 10))).monitoring_schedule ∧
    cholesterolRow ∉ (generate_care_plan scenarioB_profile
        (mkRiskSet (mkRat 2 10) (mkRat 2 10) (mkRat 2 10))).monitoring_schedule ∧
    medicationRow ∉ (generate_care_plan scenarioB_profile
        (mkRiskSet (mkRat 2 10) (mkRat 2 10) (mkRat 2 10))).monitoring_schedule := by
  decide

/-- C5 counterexample: with diastolic pressure 125 the hypertensive-crisis
entry appears even at systolic 179, refuting the claim that systolic 179 never
produces it (the OR on diastolic ≥ 120 also fires the trigger). -/
theorem C5_counterexample :
    hypertensiveCrisisAction ∈
      (generate_care_plan { scenarioB_profile with systolic_bp := 179, diastolic_bp := 125 }
        (mkRiskSet (mkRat 2 10) (mkRat 2 10) (mkRat 2 10))).immediate_actions := by
  decide

/-- C5 (corrected): whenever the diastolic pressure is below 120, setting
systolic to 180 puts the hypertensive-crisis entry in immediate actions and
setting it to 179 does not. -/
theorem C5_bp_boundary (p : PatientProfile) (risks : RiskAssessmentSet)
    (h : p.diastolic_bp < 120) :
    hypertensiveCrisisAction ∈
        (generate_care_plan { p with systolic_bp := 180 } risks).immediate_actions ∧
    hypertensiveCrisisAction ∉
        (generate_care_plan { p with systolic_bp := 179 } risks).immediate_actions := by
  constructor
  · simp [generate_care_plan, add_immediate_actions, le_refl]
  · simp only [generate_care_plan, add_immediate_actions]
    split_ifs <;> simp_all [hypertensiveCrisisAction] <;>
      (rcases ‹(180 : Rat) ≤ 179 ∨ 120 ≤ p.diastolic_bp› with h' | h' <;> linarith)

/-- C5 witness: the boundary behaviour at the Scenario B profile, whose
diastolic pressure is 70. -/
theorem C5_bp_boundary_witness :
    scenarioB_profile.diastolic_bp < 120 ∧
    (hypertensiveCrisisAction ∈
        (generate_care_plan { scenarioB_profile with systolic_bp := 180 }
          (mkRiskSet (mkRat 2 10) (mkRat 2 10) (mkRat 2 10))).immediate_actions ∧
     hypertensiveCrisisAction ∉
        (generate_care_plan { scenarioB_profile with systolic_bp := 179 }
          (mkRiskSet (mkRat 2 10) (mkRat 2 10) (mkRat 2 10))).immediate_actions) :=
  ⟨by decide,
   C5_bp_boundary scenarioB_profile (mkRiskSet (mkRat 2 10) (mkRat 2 10) (mkRat 2 10))
     (by decide)⟩

/-- C6 (confirmed): the care-plan generator fails (returns no plan at all)
exactly when one of the three required risk keys is absent; when all three are
present no such error occurs. The source dereferences all three keys before
any rule module runs, so no partial plan can be produced. -/
theorem C6_missing_key_fails_fast (p : PatientProfile)
    (risks : String → Option RiskAssessment) :
    generate_comprehensive_care_plan p risks = none ↔
      risks ("diabetes") = none ∨ risks ("heart_disease") = none ∨
        risks ("hypertension") = none := by
  unfold generate_comprehensive_care_plan
  rcases hd : risks ("diabetes") with _ | d
  · simp [hd]
  · rcases hh : risks ("heart_disease") with _ | h2
    · simp [hd, hh]
    · rcases hy : risks ("hypertension") with _ | h3 <;> simp [hd, hh, hy]

/-- C6 witness: with every key missing the generator returns none. -/
theorem C6_missing_key_fails_fast_witness :
    generate_comprehensive_care_plan scenarioB_profile (fun _ => none) = none :=
  (C6_missing_key_fails_fast scenarioB_profile (fun _ => none)).mpr (Or.inl rfl)

/-- C7 (confirmed): for every profile — all numeric fields range over all
rationals, including zero and negative values — and any three assessments,
the generator returns the complete care plan (never an error), and that plan
always carries the physical-activity monitoring row. -/
theorem C7_engine_total (p : PatientProfile) (d hd hy : RiskAssessment) :
    generate_comprehensive_care_plan p (fullRiskLookup d hd hy) =
      some (generate_care_plan p ⟨d, hd, hy⟩) ∧
    activityRow ∈ (generate_care_plan p ⟨d, hd, hy⟩).monitoring_schedule := by
  constructor
  · rfl
  · simp [generate_care_plan, add_monitoring_schedule]

/-- C7 witness: the engine is total on a profile whose fields are zero or
negative. -/
theorem C7_engine_total_witness :
    generate_comprehensive_care_plan outOfRange_profile
        (fullRiskLookup (mkRisk 0) (mkRisk (-1)) (mkRisk 2)) =
      some (generate_care_plan outOfRange_profile ⟨mkRisk 0, mkRisk (-1), mkRisk 2⟩) ∧
    activityRow ∈
      (generate_care_plan outOfRange_profile
        ⟨mkRisk 0, mkRisk (-1), mkRisk 2⟩).monitoring_schedule :=
  C7_engine_total outOfRange_profile (mkRisk 0) (mkRisk (-1)) (mkRisk 2)

/-- C8 (confirmed): the elimination-for-cardiovascular-benefit recommendation
is in the substance-use list exactly when the heart-disease or hypertension
score is ≥ 0.7 and alcohol consumption is not None (the source nests the
alcohol test inside the score disjunction). -/
theorem C8_alcohol_elimination_iff (p : PatientProfile) (risks : RiskAssessmentSet) :
    ("Consider eliminating alcohol completely to maximize cardiovascular benefits" ∈
        (generate_care_plan p risks).lifestyle.substance_use) ↔
      ((risks.heart_disease.score ≥ mkRat 7 10 ∨ risks.hypertension.score ≥ mkRat 7 10) ∧
        p.alcohol_consumption ≠ "None") := by
  simp only [generate_care_plan, add_substance_use_recommendations]
  split_ifs <;> simp_all

/-- C8 witness: the recommendation appears for a moderate drinker with
heart-disease score 0.8. -/
theorem C8_alcohol_elimination_iff_witness :
    "Consider eliminating alcohol completely to maximize cardiovascular benefits" ∈
      (generate_care_plan { scenarioB_profile with alcohol_consumption := "Moderate" }
        (mkRiskSet (mkRat 2 10) (mkRat 8 10) (mkRat 2 10))).lifestyle.substance_use :=
  (C8_alcohol_elimination_iff { scenarioB_profile with alcohol_consumption := "Moderate" }
    (mkRiskSet (mkRat 2 10) (mkRat 8 10) (mkRat 2 10))).mpr
    ⟨Or.inl (by decide), by decide⟩

/-- C9 (confirmed): the plan depends only on the three score fields — two
risk-assessment sets agreeing on scores but with arbitrary risk levels and
factor lists yield identical care plans. -/
theorem C9_depends_only_on_scores (p : PatientProfile) (r r' : RiskAssessmentSet)
    (h1 : r.diabetes.score = r'.diabetes.score)
    (h2 : r.heart_disease.score = r'.heart_disease.score)
    (h3 : r.hypertension.score = r'.hypertension.score) :
    generate_care_plan p r = generate_care_plan p r' := by
  simp only [generate_care_plan, add_immediate_actions, add_diet_recommendations,
    add_exercise_recommendations, add_stress_management, add_sleep_recommendations,
    add_substance_use_recommendations, add_medical_followup, add_monitoring_schedule,
    h1, h2, h3]

/-- C9 witness: two assessment sets with equal scores but different risk
levels and factor lists give the same plan. -/
theorem C9_depends_only_on_scores_witness :
    generate_care_plan scenarioB_profile
        ⟨⟨mkRat 2 10, "Low", ["factor a"]⟩, ⟨mkRat 2 10, "Moderate", []⟩,
          ⟨mkRat 2 10, "High", ["factor b"]⟩⟩ =
      generate_care_plan scenarioB_profile (mkRiskSet (mkRat 2 10) (mkRat 2 10) (mkRat 2 10)) :=
  C9_depends_only_on_scores scenarioB_profile
    ⟨⟨mkRat 2 10, "Low", ["factor a"]⟩, ⟨mkRat 2 10, "Moderate", []⟩,
      ⟨mkRat 2 10, "High", ["factor b"]⟩⟩
    (mkRiskSet (mkRat 2 10) (mkRat 2 10) (mkRat 2 10)) rfl rfl rfl

/-- C10 (confirmed): diet, activity, stress, and sleep always carry at least
one recommendation, and the substance-use list is empty whenever smoking is
neither Current nor Former, alcohol is neither Heavy nor Moderate, and both
cardiovascular scores are below 0.7. -/
theorem C10_lifestyle_baselines (p : PatientProfile) (risks : RiskAssessmentSet) :
    (generate_care_plan p risks).lifestyle.diet_nutrition ≠ [] ∧
    (generate_care_plan p risks).lifestyle.physical_activity ≠ [] ∧
    (generate_care_plan p risks).lifestyle.stress_management ≠ [] ∧
    (generate_care_plan p risks).lifestyle.sleep_hygiene ≠ [] ∧
    (p.smoking ≠ "Current" → p.smoking ≠ "Former" →
      p.alcohol_consumption ≠ "Heavy" → p.alcohol_consumption ≠ "Moderate" →
      risks.heart_disease.score < mkRat 7 10 → risks.hypertension.score < mkRat 7 10 →
      (generate_care_plan p risks).lifestyle.substance_use = []) := by
  refine ⟨?_, ?_, ?_, ?_, ?_⟩
  · simp [generate_care_plan, add_diet_recommendations]
  · simp only [generate_care_plan, add_exercise_recommendations]
    split_ifs <;> simp
  · simp [generate_care_plan, add_stress_management]
  · simp [generate_care_plan, add_sleep_recommendations]
  · intro h1 h2 h3 h4 h5 h6
    simp [generate_care_plan, add_substance_use_recommendations, h1, h2, h3, h4,
      not_le.mpr h5, not_le.mpr h6]

/-- C10 witness: for the Scenario B input (never smoked, no alcohol, low
scores) the substance-use list is empty. -/
theorem C10_lifestyle_baselines_witness :
    (generate_care_plan scenarioB_profile
        (mkRiskSet (mkRat 2 10) (mkRat 2 10) (mkRat 2 10))).lifestyle.substance_use = [] :=
  (C10_lifestyle_baselines scenarioB_profile
      (mkRiskSet (mkRat 2 10) (mkRat 2 10) (mkRat 2 10))).2.2.2.2
    (by decide) (by decide) (by decide) (by decide) (by decide) (by decide)

end CareplanGenerator
